import Mathlib

/-!
Shallow embedding of the coffee-shop order management code:
`apps/orders/models.py` (Order, OrderItem, Payment),
`apps/kitchen/services.py` (bump / recall / start-preparing / priority),
and the `order_payment` / `order_cancel` views of `apps/dashboard/views.py`.

Monetary values (Python `Decimal`) are modelled as rationals `ℚ`;
timestamps as `Option Nat` (a `Nat` clock value, `none` = NULL);
users as `Option Nat` (user ids).
-/

namespace CoffeeShop

/-- The `Order.Status` choices from `apps/orders/models.py`. -/
inductive OrderStatus
  | pending
  | confirmed
  | preparing
  | ready
  | served
  | completed
  | cancelled
deriving DecidableEq, Repr

/-- The `Order.OrderType` choices. -/
inductive OrderType
  | dine_in
  | takeaway
  | delivery
deriving DecidableEq, Repr

/-- The `Payment.Method` choices. -/
inductive PaymentMethod
  | cash
  | card
  | upi
  | wallet
  | split
deriving DecidableEq, Repr

/-- The `Payment.Status` choices. -/
inductive PaymentStatus
  | pending
  | completed
  | failed
  | refunded
deriving DecidableEq, Repr

/-- The `Table.Status` choices from `apps/tables/models.py` (the ones the
dashboard views use). -/
inductive TableStatus
  | vacant
  | occupied
  | reserved
deriving DecidableEq, Repr

/-- One `OrderItem` row: the fields `Order.calculate_totals` and the split-bill
logic read. -/
structure OrderItem where
  item_name : String
  quantity : Nat
  unit_price : ℚ
  addons_total : ℚ
  total_price : ℚ
  seat_number : Option Nat
deriving DecidableEq, Repr

/-- A `KitchenOrderTicket` row: the fields the kitchen services touch.
`priority` is kept as the raw string the Django `TextChoices` stores. -/
structure KitchenTicket where
  ticket_number : String
  priority : String
  printed_at : Option Nat
  started_at : Option Nat
  completed_at : Option Nat
  assigned_to : Option Nat
deriving DecidableEq, Repr

/-- An `Order` row: the fields used by `calculate_totals`, `update_status`,
the payment/cancel views and the kitchen services.  `table` is the primary
table id, `combined_tables` the ids of the many-to-many combined tables,
`kitchen_ticket` the optional one-to-one ticket. -/
structure Order where
  id : Nat
  order_number : String
  status : OrderStatus
  order_type : OrderType
  table : Option Nat
  combined_tables : List Nat
  subtotal : ℚ
  discount_amount : ℚ
  discount_percentage : ℚ
  cgst_amount : ℚ
  sgst_amount : ℚ
  service_charge : ℚ
  total_amount : ℚ
  paid_amount : ℚ
  confirmed_at : Option Nat
  prepared_at : Option Nat
  served_at : Option Nat
  completed_at : Option Nat
  cancelled_at : Option Nat
  served_by : Option Nat
  items : List OrderItem
  kitchen_ticket : Option KitchenTicket
deriving DecidableEq, Repr

namespace Order

/-- Model of `Order.update_status(new_status, user)`: set the status, stamp the one
timestamp owned by the transition (and `served_by` when a user is given on
`served`), nothing else.  `now` stands for `timezone.now()`. -/
def update_status (o : Order) (new_status : OrderStatus) (user : Option Nat)
    (now : Nat) : Order :=
  let o := { o with status := new_status }
  match new_status with
  | .confirmed => { o with confirmed_at := some now }
  | .preparing => o
  | .ready => { o with prepared_at := some now }
  | .served =>
      let o := { o with served_at := some now }
      match user with
      | some u => { o with served_by := some u }
      | none => o
  | .completed => { o with completed_at := some now }
  | .cancelled => { o with cancelled_at := some now }
  | .pending => o

/-- Model of `Order.is_paid`: `paid_amount >= total_amount`. -/
def is_paid (o : Order) : Bool := o.paid_amount ≥ o.total_amount

/-- Model of `Order.balance_due`: `max(total_amount - paid_amount, 0)`. -/
def balance_due (o : Order) : ℚ := max (o.total_amount - o.paid_amount) 0

/-- Model of `Order.all_tables`: primary table (when set) followed by the combined
tables. -/
def all_tables (o : Order) : List Nat := o.table.toList ++ o.combined_tables

end Order

/-- The global `TaxSettings` singleton of `apps/core/models.py` (the fields
`calculate_totals` reads). -/
structure TaxSettings where
  cgst_rate : ℚ
  sgst_rate : ℚ
  service_charge_enabled : Bool
  service_charge_rate : ℚ
deriving DecidableEq, Repr

/-- An `Outlet` row of `apps/core/models.py` (the fields the order model
reads: tax configuration and numbering).  `order_pfx` embeds the model's
order-prefix field, `code` the outlet code. -/
structure Outlet where
  code : String
  order_pfx : String
  tax_enabled : Bool
  cgst_rate : ℚ
  sgst_rate : ℚ
  service_charge_enabled : Bool
  service_charge_rate : ℚ
deriving DecidableEq, Repr

/-- The tax-settings resolution at the top of `Order.calculate_totals`:
outlet settings when an outlet is present and its `tax_enabled` is set,
otherwise the global `TaxSettings` singleton. -/
def resolveTax (outlet : Option Outlet) (global : TaxSettings) : TaxSettings :=
  match outlet with
  | some o =>
      if o.tax_enabled then
        ⟨o.cgst_rate, o.sgst_rate, o.service_charge_enabled, o.service_charge_rate⟩
      else global
  | none => global

namespace Order

/-- Model of `Order.calculate_totals()`: recompute subtotal from the live items,
overwrite `discount_amount` when a positive `discount_percentage` is set,
then taxes and service charge on the taxable amount, then the total. -/
def calculate_totals (o : Order) (outlet : Option Outlet) (global : TaxSettings) :
    Order :=
  let cfg := resolveTax outlet global
  let subtotal := (o.items.map (·.total_price)).sum
  let discount_amount :=
    if o.discount_percentage > 0 then subtotal * o.discount_percentage / 100
    else o.discount_amount
  let taxable_amount := subtotal - discount_amount
  let cgst_amount := taxable_amount * cfg.cgst_rate / 100
  let sgst_amount := taxable_amount * cfg.sgst_rate / 100
  let service_charge :=
    if cfg.service_charge_enabled then taxable_amount * cfg.service_charge_rate / 100
    else 0
  { o with
      subtotal := subtotal
      discount_amount := discount_amount
      cgst_amount := cgst_amount
      sgst_amount := sgst_amount
      service_charge := service_charge
      total_amount := taxable_amount + cgst_amount + sgst_amount + service_charge }

end Order

/-- Python string `or` used by the prefix fallbacks: an empty string is
falsy. -/
def pyStrOr (a b : String) : String := if a = "" then b else a

/-- The `strftime` zero-padded two-digit field (`%y`, `%m`, `%d`). -/
def format2 (n : Nat) : String := (if n < 10 then "0" else "") ++ toString n

/-- Model of `today.strftime("%y%m%d")` for a date given as year / month / day. -/
def dateStrYYMMDD (y m d : Nat) : String :=
  format2 (y % 100) ++ format2 m ++ format2 d

/-- Python `f"{n:04d}"`: decimal digits zero-padded on the left to width 4. -/
def format4 (n : Nat) : String :=
  let s := toString n
  String.mk (List.replicate (4 - s.length) '0') ++ s

/-- A row of the orders table as seen by the daily-count query of
`_generate_order_number`: its creation day (as an abstract day index) and
its outlet id. -/
structure OrderRow where
  created_day : Nat
  outlet_id : Option Nat
deriving DecidableEq, Repr

/-- The `Order.objects.filter(created_at__date=today, ...)` count:
today's orders, restricted to the outlet when one is set. -/
def todaysOrderCount (db : List OrderRow) (today : Nat) (outlet_id : Option Nat) :
    Nat :=
  match outlet_id with
  | some oid => (db.filter (fun r => r.created_day = today ∧ r.outlet_id = some oid)).length
  | none => (db.filter (fun r => r.created_day = today)).length

/-- Model of `Order._generate_order_number()`.  `outlet` is the order's outlet (with
`oid` its id used by the count query), `globalPfx` the
`OrderSettings.order_number_prefix` field, `(y, m, d)` today's date with
`today` its day index in the row database `db`. -/
def generate_order_number (db : List OrderRow) (outlet : Option (Nat × Outlet))
    (globalPfx : String) (y m d today : Nat) : String :=
  let pfx :=
    match outlet with
    | some (_, o) => pyStrOr o.order_pfx (pyStrOr o.code "ORD")
    | none => pyStrOr globalPfx "ORD"
  let date_str := dateStrYYMMDD y m d
  let today_count := todaysOrderCount db today (outlet.map (·.1)) + 1
  pfx ++ date_str ++ format4 today_count

/-- A `Payment` row: the fields `Payment.save` touches. -/
structure Payment where
  amount : ℚ
  method : PaymentMethod
  status : PaymentStatus
  amount_tendered : Option ℚ
  change_amount : Option ℚ
deriving DecidableEq, Repr

/-- The aggregate `order.payments.filter(status=completed).Sum("amount")`
(with the trailing `or 0`: an empty sum is 0). -/
def completedTotal (ps : List Payment) : ℚ :=
  ((ps.filter (fun p => p.status = .completed)).map (·.amount)).sum

/-- The cash-change step at the top of `Payment.save`: for a cash payment
with a truthy `amount_tendered` (Python truthiness: `None` and `0` are
falsy), store `change_amount = amount_tendered - amount`. -/
def apply_cash_change (p : Payment) : Payment :=
  match p.amount_tendered with
  | some t =>
      if p.method = .cash ∧ t ≠ 0 then { p with change_amount := some (t - p.amount) }
      else p
  | none => p

/-- Model of `Payment.save()` on a new payment `p` of an order whose current payment
list is `ps` and current `paid_amount` is `paid`: compute cash change,
insert the row, and when the payment is completed overwrite the order's
`paid_amount` with the completed-payments aggregate.  Returns the new
payment list and the order's new `paid_amount`. -/
def payment_save (ps : List Payment) (paid : ℚ) (p : Payment) :
    List Payment × ℚ :=
  let p := apply_cash_change p
  let ps := ps ++ [p]
  let paid := if p.status = .completed then completedTotal ps else paid
  (ps, paid)

/-- The kitchen WebSocket broadcasts of `apps/kitchen/services.py`, recorded
as events instead of channel-layer sends. -/
inductive KitchenEvent
  | order_bumped (order_id : Nat) (user : Option Nat)
  | order_status_changed (order_id : Nat) (old_status new_status : OrderStatus)
      (user : Option Nat)
  | priority_changed (order_id : Nat) (old_priority new_priority : String)
      (user : Option Nat)
deriving DecidableEq, Repr

/-- Result of a kitchen service call: the `(bool, message)` return value,
the order (with its ticket) as left by the call, and the broadcasts it
emitted. -/
structure KitchenOpResult where
  ok : Bool
  msg : String
  order : Order
  events : List KitchenEvent
deriving DecidableEq, Repr

/-- Model of `bump_order(order, user)`: from `preparing`, move to `ready` via
`update_status`, stamp the ticket's `completed_at`, broadcast the bump. -/
def bump_order (order : Order) (user : Option Nat) (now : Nat) : KitchenOpResult :=
  if order.status ≠ .preparing then
    ⟨false, "Order is not in preparing status", order, []⟩
  else
    let order := order.update_status .ready user now
    let order :=
      match order.kitchen_ticket with
      | some ticket => { order with kitchen_ticket := some { ticket with completed_at := some now } }
      | none => order
    ⟨true, "Order bumped to ready", order, [.order_bumped order.id user]⟩

/-- Model of `recall_order(order, user)`: from `ready`, set status back to
`preparing` directly, clear `prepared_at` and the ticket's `completed_at`,
broadcast the status change. -/
def recall_order (order : Order) (user : Option Nat) : KitchenOpResult :=
  if order.status ≠ .ready then
    ⟨false, "Order is not in ready status", order, []⟩
  else
    let old_status := order.status
    let order := { order with status := .preparing, prepared_at := none }
    let order :=
      match order.kitchen_ticket with
      | some ticket => { order with kitchen_ticket := some { ticket with completed_at := none } }
      | none => order
    ⟨true, "Order recalled to preparing", order,
      [.order_status_changed order.id old_status .preparing user]⟩

/-- Model of `start_preparing(order, user)`: from `confirmed`, move to `preparing`
via `update_status`, stamp `started_at` / `assigned_to` on a not-yet-started
ticket, broadcast the status change. -/
def start_preparing (order : Order) (user : Option Nat) (now : Nat) : KitchenOpResult :=
  if order.status ≠ .confirmed then
    ⟨false, "Order is not in confirmed status", order, []⟩
  else
    let old_status := order.status
    let order := order.update_status .preparing user now
    let order :=
      match order.kitchen_ticket with
      | some ticket =>
          if ticket.started_at = none then
            let ticket := { ticket with started_at := some now, assigned_to := user }
            { order with kitchen_ticket := some ticket }
          else order
      | none => order
    ⟨true, "Order moved to preparing", order,
      [.order_status_changed order.id old_status .preparing user]⟩

/-- The `KitchenOrderTicket.Priority` choice values. -/
def priorityChoices : List String := ["low", "normal", "high", "rush"]

/-- Model of `set_order_priority(order, priority, user)`: requires a ticket and a
valid priority value, then updates the ticket's priority and broadcasts. -/
def set_order_priority (order : Order) (priority : String) (user : Option Nat) :
    KitchenOpResult :=
  match order.kitchen_ticket with
  | none => ⟨false, "Order has no kitchen ticket", order, []⟩
  | some ticket =>
    let old_priority := ticket.priority
    if priority ∉ priorityChoices then
      ⟨false, "Invalid priority value", order, []⟩
    else
      let order := { order with kitchen_ticket := some { ticket with priority := priority } }
      ⟨true, "Priority changed to " ++ priority, order,
        [.priority_changed order.id old_priority priority user]⟩

/-! Dashboard views (`apps/dashboard/views.py`).  The tables table is a
function from table id to `TableStatus`; the orders table is a list of
`Order` rows queried by the release loops. -/

/-- Point update of the tables table (`tbl.save(update_fields=["status"])`). -/
def setTable (ts : Nat → TableStatus) (t : Nat) (s : TableStatus) :
    Nat → TableStatus :=
  fun x => if x = t then s else ts x

/-- The `Q(table=tbl) | Q(combined_tables=tbl)` condition: `o` references
table `t` as primary or combined. -/
def claimsTable (o : Order) (t : Nat) : Bool :=
  o.table = some t || t ∈ o.combined_tables

/-- The active statuses of the `order_payment` release query: everything
except `completed` and `cancelled`. -/
def paymentActiveStatuses : List OrderStatus :=
  [.pending, .confirmed, .preparing, .ready, .served]

/-- The active statuses of the `order_cancel` release query (it omits
`served`). -/
def cancelActiveStatuses : List OrderStatus :=
  [.pending, .confirmed, .preparing, .ready]

/-- The `.exclude(pk=pk).exists()` query of the release loops: is there an
order other than `pk` whose status is in `active` that references `t`? -/
def hasOtherOrder (db : List Order) (active : List OrderStatus) (pk t : Nat) :
    Bool :=
  db.any (fun o => claimsTable o t && o.status ∈ active && o.id ≠ pk)

/-- The table release loop shared by `order_payment` and `order_cancel`:
for each table of the order, set it vacant unless another order with an
active status still claims it. -/
def releaseFreeTables (db : List Order) (active : List OrderStatus) (pk : Nat)
    (tbls : List Nat) (ts : Nat → TableStatus) : Nat → TableStatus :=
  tbls.foldl
    (fun acc t => if hasOtherOrder db active pk t then acc else setTable acc t .vacant)
    ts

/-- The `if order.is_paid:` block at the end of the `order_payment` view:
complete a served/ready order, then for dine-in release every table of the
order not claimed by another active order.  Returns the order and the
tables table as left by the block. -/
def order_payment_after_paid (db : List Order) (order : Order)
    (ts : Nat → TableStatus) (now : Nat) : Order × (Nat → TableStatus) :=
  if order.is_paid then
    let order :=
      if order.status = .served ∨ order.status = .ready then
        order.update_status .completed none now
      else order
    if order.order_type = .dine_in then
      (order, releaseFreeTables db paymentActiveStatuses order.id order.all_tables ts)
    else (order, ts)
  else (order, ts)

/-- The `order_cancel` view on a found order: reject completed orders, then
paid orders, each with its error message and no state change; otherwise
cancel via `update_status` and release the order's unclaimed tables when
dine-in.  Returns the flashed message, the order and the tables table. -/
def order_cancel (db : List Order) (order : Order) (ts : Nat → TableStatus)
    (now : Nat) : String × Order × (Nat → TableStatus) :=
  if order.status = .completed then
    ("Cannot cancel a completed order.", order, ts)
  else if order.is_paid then
    ("Cannot cancel a paid order. Process refund first.", order, ts)
  else
    let order := order.update_status .cancelled none now
    let ts :=
      if order.order_type = .dine_in then
        releaseFreeTables db cancelActiveStatuses order.id order.all_tables ts
      else ts
    ("Order #" ++ order.order_number ++ " cancelled.", order, ts)

/-! Concrete rows used to evaluate the theorems on explicit inputs. -/

/-- A fresh pending dine-in order with no items, no payments, all money
fields 0. -/
def baseOrder : Order where
  id := 1
  order_number := "ORD2601010001"
  status := .pending
  order_type := .dine_in
  table := none
  combined_tables := []
  subtotal := 0
  discount_amount := 0
  discount_percentage := 0
  cgst_amount := 0
  sgst_amount := 0
  service_charge := 0
  total_amount := 0
  paid_amount := 0
  confirmed_at := none
  prepared_at := none
  served_at := none
  completed_at := none
  cancelled_at := none
  served_by := none
  items := []
  kitchen_ticket := none

/-- A kitchen ticket that has not been started. -/
def sampleTicket : KitchenTicket :=
  ⟨"T001", "normal", none, none, none, none⟩

/-- A pending order that owns a kitchen ticket. -/
def ticketOrder : Order := { baseOrder with kitchen_ticket := some sampleTicket }

/-- A ready order with a started and completed ticket, as after
`bump_order`. -/
def readyOrder : Order :=
  { baseOrder with
      id := 2
      status := .ready
      prepared_at := some 10
      kitchen_ticket := some { sampleTicket with
        started_at := some 5, assigned_to := some 4, completed_at := some 10 } }

/-! ## Helper lemmas -/

/-- Field-by-field characterisation of `Order.update_status`: the status is
set, the one timestamp owned by the transition is stamped (`served_by` only
when a user is passed on `served`), every other field is untouched. -/
theorem update_status_fields (o : Order) (s : OrderStatus) (u : Option Nat)
    (n : Nat) :
    (o.update_status s u n).status = s ∧
    (o.update_status s u n).id = o.id ∧
    (o.update_status s u n).order_number = o.order_number ∧
    (o.update_status s u n).order_type = o.order_type ∧
    (o.update_status s u n).table = o.table ∧
    (o.update_status s u n).combined_tables = o.combined_tables ∧
    (o.update_status s u n).subtotal = o.subtotal ∧
    (o.update_status s u n).discount_amount = o.discount_amount ∧
    (o.update_status s u n).discount_percentage = o.discount_percentage ∧
    (o.update_status s u n).cgst_amount = o.cgst_amount ∧
    (o.update_status s u n).sgst_amount = o.sgst_amount ∧
    (o.update_status s u n).service_charge = o.service_charge ∧
    (o.update_status s u n).total_amount = o.total_amount ∧
    (o.update_status s u n).paid_amount = o.paid_amount ∧
    (o.update_status s u n).items = o.items ∧
    (o.update_status s u n).kitchen_ticket = o.kitchen_ticket ∧
    (o.update_status s u n).confirmed_at
      = (if s = .confirmed then some n else o.confirmed_at) ∧
    (o.update_status s u n).prepared_at
      = (if s = .ready then some n else o.prepared_at) ∧
    (o.update_status s u n).served_at
      = (if s = .served then some n else o.served_at) ∧
    (o.update_status s u n).served_by
      = (if s = .served ∧ u ≠ none then u else o.served_by) ∧
    (o.update_status s u n).completed_at
      = (if s = .completed then some n else o.completed_at) ∧
    (o.update_status s u n).cancelled_at
      = (if s = .cancelled then some n else o.cancelled_at) := by
  cases s <;> cases u <;> simp [Order.update_status]

/-! ## Claim theorems -/

/-- C8: `update_status(order, new_status, user)` modifies only the status
field and the single timestamp field owned by that transition
(`confirmed_at` for confirmed, `prepared_at` for ready, `served_at` plus
`served_by` for served, `completed_at` for completed, `cancelled_at` for
cancelled, none for preparing); all other transition timestamps, all money
fields and the items are left unchanged. -/
theorem update_status_frame (o : Order) (s : OrderStatus) (u : Option Nat)
    (n : Nat) :
    (o.update_status s u n).status = s ∧
    (o.update_status s u n).subtotal = o.subtotal ∧
    (o.update_status s u n).discount_amount = o.discount_amount ∧
    (o.update_status s u n).discount_percentage = o.discount_percentage ∧
    (o.update_status s u n).cgst_amount = o.cgst_amount ∧
    (o.update_status s u n).sgst_amount = o.sgst_amount ∧
    (o.update_status s u n).service_charge = o.service_charge ∧
    (o.update_status s u n).total_amount = o.total_amount ∧
    (o.update_status s u n).paid_amount = o.paid_amount ∧
    (o.update_status s u n).items = o.items ∧
    (o.update_status s u n).confirmed_at
      = (if s = .confirmed then some n else o.confirmed_at) ∧
    (o.update_status s u n).prepared_at
      = (if s = .ready then some n else o.prepared_at) ∧
    (o.update_status s u n).served_at
      = (if s = .served then some n else o.served_at) ∧
    (o.update_status s u n).served_by
      = (if s = .served ∧ u ≠ none then u else o.served_by) ∧
    (o.update_status s u n).completed_at
      = (if s = .completed then some n else o.completed_at) ∧
    (o.update_status s u n).cancelled_at
      = (if s = .cancelled then some n else o.cancelled_at) := by
  obtain ⟨h1, _, _, _, _, _, h7, h8, h9, h10, h11, h12, h13, h14, h15, _,
    h17, h18, h19, h20, h21, h22⟩ := update_status_fields o s u n
  exact ⟨h1, h7, h8, h9, h10, h11, h12, h13, h14, h15,
    h17, h18, h19, h20, h21, h22⟩

/-- C4, counterexample: `update_status` does not enforce terminal-state
closure — applied to a cancelled order with target `confirmed`, it moves
the order out of the terminal state (and stamps `confirmed_at`), so the
claim that the status is left unchanged is false. -/
theorem update_status_terminal_counterexample :
    ({ baseOrder with status := .cancelled } : Order).status = .cancelled ∧
    (Order.update_status { baseOrder with status := .cancelled } .confirmed none 5).status
      = .confirmed ∧
    (Order.update_status { baseOrder with status := .cancelled } .confirmed none 5).confirmed_at
      = some 5 := by
  refine ⟨rfl, rfl, rfl⟩

/-- C4, amended: `update_status` applies the requested status
unconditionally, even to an order in a terminal state (`cancelled` or
`completed`); the state-machine closure is the callers' responsibility, not
the aggregate's. -/
theorem update_status_ignores_terminal_state (o : Order) (s : OrderStatus)
    (u : Option Nat) (n : Nat)
    (h : o.status = .cancelled ∨ o.status = .completed) :
    (o.update_status s u n).status = s :=
  (update_status_fields o s u n).1

/-- Witness for C4's amended theorem: a concrete cancelled order is moved
to `pending`. -/
theorem update_status_ignores_terminal_state_witness :
    (Order.update_status { baseOrder with status := .cancelled } .pending none 3).status
      = .pending :=
  update_status_ignores_terminal_state _ .pending none 3 (Or.inl rfl)

/-- A single line item worth 200.00 (two 100.00 units). -/
def sampleItems : List OrderItem := [⟨"Latte", 2, 100, 0, 200, none⟩]

/-- The order of scenario B: 200.00 of items and a 10% discount. -/
def discountedOrder : Order :=
  { baseOrder with items := sampleItems, discount_percentage := 10 }

/-- Global tax settings with CGST/SGST at 2.5% each and no service
charge. -/
def gstTax : TaxSettings := ⟨2.5, 2.5, false, 0⟩

/-- C1: after `calculate_totals`, the subtotal is the sum of `total_price`
over the order's current items; a positive `discount_percentage` overwrites
`discount_amount` with `subtotal * percentage / 100`; CGST, SGST and the
service charge are the resolved rates applied to the taxable amount
(service charge 0 when disabled); and the total is the taxable amount plus
the three charges.  In particular a 200.00 subtotal with a 10% discount,
CGST/SGST at 2.5% and no service charge yields discount 20, CGST 4.5,
SGST 4.5, total 189. -/
theorem calculate_totals_spec :
    (∀ (o : Order) (outlet : Option Outlet) (global : TaxSettings),
      (o.calculate_totals outlet global).subtotal
        = (o.items.map (·.total_price)).sum ∧
      (o.calculate_totals outlet global).discount_amount
        = (if o.discount_percentage > 0 then
            (o.calculate_totals outlet global).subtotal * o.discount_percentage / 100
          else o.discount_amount) ∧
      (o.calculate_totals outlet global).cgst_amount
        = ((o.calculate_totals outlet global).subtotal
            - (o.calculate_totals outlet global).discount_amount)
          * (resolveTax outlet global).cgst_rate / 100 ∧
      (o.calculate_totals outlet global).sgst_amount
        = ((o.calculate_totals outlet global).subtotal
            - (o.calculate_totals outlet global).discount_amount)
          * (resolveTax outlet global).sgst_rate / 100 ∧
      (o.calculate_totals outlet global).service_charge
        = (if (resolveTax outlet global).service_charge_enabled then
            ((o.calculate_totals outlet global).subtotal
              - (o.calculate_totals outlet global).discount_amount)
            * (resolveTax outlet global).service_charge_rate / 100
          else 0) ∧
      (o.calculate_totals outlet global).total_amount
        = ((o.calculate_totals outlet global).subtotal
            - (o.calculate_totals outlet global).discount_amount)
          + (o.calculate_totals outlet global).cgst_amount
          + (o.calculate_totals outlet global).sgst_amount
          + (o.calculate_totals outlet global).service_charge) ∧
    ((discountedOrder.calculate_totals none gstTax).subtotal = 200 ∧
     (discountedOrder.calculate_totals none gstTax).discount_amount = 20 ∧
     (discountedOrder.calculate_totals none gstTax).cgst_amount = 4.5 ∧
     (discountedOrder.calculate_totals none gstTax).sgst_amount = 4.5 ∧
     (discountedOrder.calculate_totals none gstTax).service_charge = 0 ∧
     (discountedOrder.calculate_totals none gstTax).total_amount = 189) := by
  constructor
  · intro o outlet global
    refine ⟨rfl, ?_, rfl, rfl, rfl, ?_⟩
    · by_cases h : o.discount_percentage > 0 <;> simp [Order.calculate_totals, h]
    · simp [Order.calculate_totals]
  · refine ⟨by norm_num [Order.calculate_totals, discountedOrder, sampleItems,
      gstTax, resolveTax, baseOrder], ?_, ?_, ?_, ?_, ?_⟩ <;>
      norm_num [Order.calculate_totals, discountedOrder, sampleItems,
        gstTax, resolveTax, baseOrder]

/-- The cash-change step changes neither the payment's status nor its
amount. -/
theorem apply_cash_change_status_amount (p : Payment) :
    (apply_cash_change p).status = p.status ∧
    (apply_cash_change p).amount = p.amount := by
  unfold apply_cash_change
  cases p.amount_tendered with
  | none => exact ⟨rfl, rfl⟩
  | some t =>
      by_cases h : p.method = .cash ∧ t ≠ 0 <;> simp [h]

/-- Appending one payment adds its amount to the completed aggregate
exactly when it is completed. -/
theorem completedTotal_append (ps : List Payment) (p : Payment) :
    completedTotal (ps ++ [p])
      = completedTotal ps + (if p.status = .completed then p.amount else 0) := by
  by_cases h : p.status = .completed <;>
    simp [completedTotal, List.filter_append, h]

/-- C2: `Payment.save` keeps `paid_amount` equal to the sum of the amounts
of the order's completed payments, and saving a payment whose status is not
completed leaves `paid_amount` unchanged. -/
theorem payment_save_paid_invariant (ps : List Payment) (paid : ℚ)
    (p : Payment) (h : paid = completedTotal ps) :
    (payment_save ps paid p).2 = completedTotal (payment_save ps paid p).1 ∧
    (p.status ≠ .completed → (payment_save ps paid p).2 = paid) := by
  obtain ⟨hs, _⟩ := apply_cash_change_status_amount p
  constructor
  · by_cases hc : (apply_cash_change p).status = .completed
    · simp [payment_save, hc]
    · simp [payment_save, hc, completedTotal_append, h]
  · intro hnc
    have hc : (apply_cash_change p).status ≠ .completed := by
      rw [hs]; exact hnc
    simp [payment_save, hc]

/-- Witness for C2: recording a pending 50.00 payment on an order with no
payments leaves `paid_amount` at 0, which is the completed aggregate of the
resulting payment list. -/
theorem payment_save_paid_invariant_witness :
    (payment_save [] 0 ⟨50, .cash, .pending, none, none⟩).2
      = completedTotal (payment_save [] 0 ⟨50, .cash, .pending, none, none⟩).1 ∧
    (payment_save [] 0 ⟨50, .cash, .pending, none, none⟩).2 = 0 := by
  have h := payment_save_paid_invariant [] 0 ⟨50, .cash, .pending, none, none⟩
    (by simp [completedTotal])
  exact ⟨h.1, h.2 (by decide)⟩

/-- An outlet with code `BR`, order-prefix `CF`, GST 2.5/2.5, no service
charge. -/
def sampleOutlet : Outlet := ⟨"BR", "CF", true, 2.5, 2.5, false, 0⟩

/-- Order rows: two created today (day 42) for outlet 7, one today for
outlet 9, one yesterday for outlet 7. -/
def sampleRows : List OrderRow :=
  [⟨42, some 7⟩, ⟨42, some 7⟩, ⟨42, some 9⟩, ⟨41, some 7⟩]

/-- C9: the generated order number is
`prefix ++ YYMMDD ++ (count of orders already created today for the outlet
plus one, zero-padded to 4 digits)`, where the prefix falls back from the
outlet's configured order-prefix to the outlet code to the global default
`ORD`.  In particular, outlet 7 with prefix `CF` and two orders already
created on 2026-10-12 gets `CF2610120003`; an outlet with an empty
order-prefix falls back to its code; no outlet and an empty global setting
fall back to `ORD`. -/
theorem generate_order_number_spec :
    (∀ (db : List OrderRow) (outlet : Option (Nat × Outlet))
       (globalPfx : String) (y m d today : Nat),
      generate_order_number db outlet globalPfx y m d today =
        (match outlet with
         | some (_, o) =>
             if o.order_pfx ≠ "" then o.order_pfx
             else if o.code ≠ "" then o.code
             else "ORD"
         | none => if globalPfx ≠ "" then globalPfx else "ORD")
        ++ dateStrYYMMDD y m d
        ++ format4 (todaysOrderCount db today (outlet.map (·.1)) + 1)) ∧
    generate_order_number sampleRows (some (7, sampleOutlet)) "GL" 2026 10 12 42
      = "CF2610120003" ∧
    generate_order_number [] (some (1, { sampleOutlet with order_pfx := "" }))
      "GL" 2026 1 2 0 = "BR2601020001" ∧
    generate_order_number [] none "" 2026 1 2 0 = "ORD2601020001" := by
  refine ⟨?_, by decide, by decide, by decide⟩
  intro db outlet globalPfx y m d today
  cases outlet with
  | none =>
      by_cases h : globalPfx = "" <;>
        simp [generate_order_number, pyStrOr, h]
  | some po =>
      obtain ⟨oid, o⟩ := po
      by_cases h1 : o.order_pfx = "" <;> by_cases h2 : o.code = "" <;>
        simp [generate_order_number, pyStrOr, h1, h2]

/-- C6: every kitchen operation called from the wrong source state fails
softly with `(false, descriptive message)` and mutates nothing — the
returned order (ticket included) is the one passed in and no broadcast is
emitted: `bump_order` outside `preparing`, `recall_order` outside `ready`,
`start_preparing` outside `confirmed`, and `set_order_priority` with an
invalid priority value on a ticketed order. -/
theorem kitchen_guards :
    (∀ (o : Order) (u : Option Nat) (n : Nat), o.status ≠ .preparing →
      bump_order o u n = ⟨false, "Order is not in preparing status", o, []⟩) ∧
    (∀ (o : Order) (u : Option Nat), o.status ≠ .ready →
      recall_order o u = ⟨false, "Order is not in ready status", o, []⟩) ∧
    (∀ (o : Order) (u : Option Nat) (n : Nat), o.status ≠ .confirmed →
      start_preparing o u n = ⟨false, "Order is not in confirmed status", o, []⟩) ∧
    (∀ (o : Order) (pr : String) (u : Option Nat), o.kitchen_ticket ≠ none →
      pr ∉ priorityChoices →
      set_order_priority o pr u = ⟨false, "Invalid priority value", o, []⟩) := by
  refine ⟨?_, ?_, ?_, ?_⟩
  · intro o u n h; simp [bump_order, h]
  · intro o u h; simp [recall_order, h]
  · intro o u n h; simp [start_preparing, h]
  · intro o pr u ht hp
    obtain ⟨t, ht'⟩ := Option.ne_none_iff_exists'.mp ht
    simp [set_order_priority, ht', hp]

/-- Witness for C6: a pending order rejects bump, recall and
start-preparing; a ticketed order rejects the priority value `urgent`. -/
theorem kitchen_guards_witness :
    bump_order baseOrder none 0
      = ⟨false, "Order is not in preparing status", baseOrder, []⟩ ∧
    recall_order baseOrder none
      = ⟨false, "Order is not in ready status", baseOrder, []⟩ ∧
    start_preparing baseOrder none 0
      = ⟨false, "Order is not in confirmed status", baseOrder, []⟩ ∧
    set_order_priority ticketOrder "urgent" none
      = ⟨false, "Invalid priority value", ticketOrder, []⟩ :=
  ⟨kitchen_guards.1 baseOrder none 0 (by decide),
   kitchen_guards.2.1 baseOrder none (by decide),
   kitchen_guards.2.2.1 baseOrder none 0 (by decide),
   kitchen_guards.2.2.2 ticketOrder "urgent" none (by decide) (by decide)⟩

/-- C7: `recall_order` on a `ready` order succeeds with
`(true, "Order recalled to preparing")`, sets the status back to
`preparing`, clears `prepared_at`, clears the ticket's `completed_at`
(leaving `started_at` and `assigned_to` as they were), and broadcasts a
status change with old status `ready` and new status `preparing`. -/
theorem recall_order_from_ready (o : Order) (u : Option Nat)
    (h : o.status = .ready) :
    recall_order o u =
      ⟨true, "Order recalled to preparing",
        { o with
            status := .preparing
            prepared_at := none
            kitchen_ticket :=
              o.kitchen_ticket.map (fun t => { t with completed_at := none }) },
        [.order_status_changed o.id .ready .preparing u]⟩ := by
  cases ht : o.kitchen_ticket <;> simp [recall_order, h, ht]

/-- Witness for C7: recalling the concrete ready order with its started
ticket. -/
theorem recall_order_from_ready_witness :
    recall_order readyOrder (some 9) =
      ⟨true, "Order recalled to preparing",
        { readyOrder with
            status := .preparing
            prepared_at := none
            kitchen_ticket :=
              readyOrder.kitchen_ticket.map (fun t => { t with completed_at := none }) },
        [.order_status_changed readyOrder.id .ready .preparing (some 9)]⟩ :=
  recall_order_from_ready readyOrder (some 9) (by decide)

/-- Pointwise value of the table release loop: a table comes out vacant
when it is in the processed list and no other active order claims it, and
keeps its previous status otherwise. -/
theorem releaseFreeTables_apply (db : List Order) (active : List OrderStatus)
    (pk : Nat) (tbls : List Nat) (ts : Nat → TableStatus) (t : Nat) :
    releaseFreeTables db active pk tbls ts t =
      if t ∈ tbls ∧ hasOtherOrder db active pk t = false then .vacant else ts t := by
  induction tbls generalizing ts with
  | nil => simp [releaseFreeTables]
  | cons a rest ih =>
      have hstep : releaseFreeTables db active pk (a :: rest) ts
          = releaseFreeTables db active pk rest
              (if hasOtherOrder db active pk a then ts else setTable ts a .vacant) := rfl
      rw [hstep, ih]
      by_cases ha : hasOtherOrder db active pk a = true <;>
        by_cases hot : hasOtherOrder db active pk t = true <;>
        by_cases hta : t = a <;>
        by_cases htr : t ∈ rest <;>
        simp_all [setTable]

/-- The spec-side release condition: some *other* order in a non-terminal,
non-cancelled state still references table `t` as primary or combined. -/
def otherActiveClaims (db : List Order) (pk t : Nat) : Prop :=
  ∃ o ∈ db, o.id ≠ pk ∧ (o.table = some t ∨ t ∈ o.combined_tables) ∧
    o.status ≠ .completed ∧ o.status ≠ .cancelled

/-- The `order_payment` active-status list is exactly the non-terminal,
non-cancelled statuses. -/
theorem mem_paymentActive_iff (s : OrderStatus) :
    s ∈ paymentActiveStatuses ↔ s ≠ .completed ∧ s ≠ .cancelled := by
  cases s <;> simp [paymentActiveStatuses]

/-- The release query of `order_payment` decides exactly the spec-side
condition. -/
theorem hasOtherOrder_payment_iff (db : List Order) (pk t : Nat) :
    hasOtherOrder db paymentActiveStatuses pk t = true ↔ otherActiveClaims db pk t := by
  unfold hasOtherOrder otherActiveClaims
  rw [List.any_eq_true]
  refine exists_congr fun o => and_congr_right fun _ => ?_
  simp only [Bool.and_eq_true, decide_eq_true_eq, claimsTable,
    Bool.or_eq_true, mem_paymentActive_iff]
  tauto

/-- C3: when a payment makes a dine-in order fully paid, every table of the
order (primary plus combined) still claimed by some other order in an
active (non-terminal, non-cancelled) state keeps its status, and every such
table claimed by no other active order is set vacant. -/
theorem order_payment_table_release (db : List Order) (order : Order)
    (ts : Nat → TableStatus) (now : Nat)
    (hpaid : order.is_paid = true) (hdine : order.order_type = .dine_in) :
    ∀ t ∈ order.all_tables,
      (otherActiveClaims db order.id t →
        (order_payment_after_paid db order ts now).2 t = ts t) ∧
      (¬ otherActiveClaims db order.id t →
        (order_payment_after_paid db order ts now).2 t = .vacant) := by
  intro t ht
  have hres : (order_payment_after_paid db order ts now).2
      = releaseFreeTables db paymentActiveStatuses order.id order.all_tables ts := by
    unfold order_payment_after_paid
    by_cases hsr : order.status = .served ∨ order.status = .ready
    · obtain ⟨_, hid, _, htype, htab, hcomb, _⟩ :=
        update_status_fields order .completed none now
      simp [hpaid, hsr, htype, hdine, Order.all_tables, htab, hcomb, hid]
    · simp [hpaid, hsr, hdine]
  rw [hres, releaseFreeTables_apply]
  constructor
  · intro hother
    have hb : hasOtherOrder db paymentActiveStatuses order.id t = true :=
      (hasOtherOrder_payment_iff db order.id t).mpr hother
    simp [hb]
  · intro hother
    have hb : hasOtherOrder db paymentActiveStatuses order.id t = false := by
      rcases Bool.eq_false_or_eq_true (hasOtherOrder db paymentActiveStatuses order.id t)
        with h | h
      · exact absurd ((hasOtherOrder_payment_iff db order.id t).mp h) hother
      · exact h
    simp [hb, ht]

/-- A fully paid served dine-in order on table 1. -/
def paidServedOrder : Order :=
  { baseOrder with
      id := 11, status := .served, table := some 1,
      total_amount := 100, paid_amount := 100 }

/-- A second, still active order claiming the same table 1. -/
def coClaimOrder : Order :=
  { baseOrder with id := 12, status := .preparing, table := some 1 }

/-- All tables start out occupied. -/
def allOccupied : Nat → TableStatus := fun _ => .occupied

/-- Witness for C3: fully paying `paidServedOrder` while `coClaimOrder`
still actively claims table 1 leaves table 1 occupied. -/
theorem order_payment_table_release_witness :
    (order_payment_after_paid [paidServedOrder, coClaimOrder] paidServedOrder
        allOccupied 99).2 1 = .occupied :=
  ((order_payment_table_release [paidServedOrder, coClaimOrder] paidServedOrder
      allOccupied 99 (by decide) (by decide) 1 (by decide)).1
    ⟨coClaimOrder, List.mem_cons_of_mem _ (List.mem_cons_self _ _),
      by decide, Or.inl rfl, by decide, by decide⟩)

/-- C5: `order_cancel` on a paid order (`is_paid`, i.e.
`paid_amount >= total_amount`) or on a completed order is rejected with its
specific error message and changes no state: the order comes back exactly
as it was (status and `cancelled_at` included) and the tables table is
untouched. -/
theorem order_cancel_guard (db : List Order) (order : Order)
    (ts : Nat → TableStatus) (now : Nat)
    (h : order.is_paid = true ∨ order.status = .completed) :
    (order_cancel db order ts now).2.1 = order ∧
    (order_cancel db order ts now).2.2 = ts ∧
    ((order_cancel db order ts now).1 = "Cannot cancel a completed order." ∨
     (order_cancel db order ts now).1
       = "Cannot cancel a paid order. Process refund first.") := by
  by_cases hc : order.status = .completed
  · unfold order_cancel
    rw [if_pos hc]
    exact ⟨rfl, rfl, Or.inl rfl⟩
  · have hp : order.is_paid = true := h.resolve_right hc
    unfold order_cancel
    rw [if_neg hc, if_pos hp]
    exact ⟨rfl, rfl, Or.inr rfl⟩

/-- Witness for C5: cancelling the fully paid `paidServedOrder` is
rejected and changes nothing. -/
theorem order_cancel_guard_witness :
    (order_cancel [] paidServedOrder allOccupied 5).2.1 = paidServedOrder ∧
    (order_cancel [] paidServedOrder allOccupied 5).2.2 = allOccupied ∧
    ((order_cancel [] paidServedOrder allOccupied 5).1
        = "Cannot cancel a completed order." ∨
     (order_cancel [] paidServedOrder allOccupied 5).1
        = "Cannot cancel a paid order. Process refund first.") :=
  order_cancel_guard [] paidServedOrder allOccupied 5 (Or.inl (by decide))

/-- C10: a freshly created order with no items has `total_amount = 0`, so
`is_paid` already holds (`0 >= 0`) and `balance_due` is 0; consequently
`order_cancel` rejects it with the cannot-cancel-a-paid-order error and
changes no state, although the order is pending, has no items and no
payment was ever recorded. -/
theorem zero_total_order_rejected_cancel :
    baseOrder.status = .pending ∧
    baseOrder.items = [] ∧
    baseOrder.total_amount = 0 ∧
    baseOrder.paid_amount = 0 ∧
    Order.is_paid baseOrder = true ∧
    Order.balance_due baseOrder = 0 ∧
    (order_cancel [] baseOrder allOccupied 7).1
      = "Cannot cancel a paid order. Process refund first." ∧
    (order_cancel [] baseOrder allOccupied 7).2.1 = baseOrder ∧
    (order_cancel [] baseOrder allOccupied 7).2.2 = allOccupied := by
  refine ⟨rfl, rfl, rfl, rfl, by decide, ?_, rfl, rfl, rfl⟩
  simp [Order.balance_due, baseOrder]

end CoffeeShop
